import Mathlib

/-!
Verification of the material-registry and reconciliation logic of the
"Sistema de Controle de Materiais" inventory application.

The definitions below are a shallow embedding of the Zustand store in
`frontend/src/hooks/useMaterials.ts` (operations `addMaterial`,
`updateMaterial`, `deleteMaterial`, `conferirMaterial` over an in-memory
list of materials, with the mock data the store is initialised with),
of the form handler `handleAddMaterial` in the Materiais page, and of the
authentication store in `frontend/src/hooks/useAuth.ts`.

Nondeterministic environment inputs of the original code
(`Date.now()`, `Math.random()`, `new Date().toISOString()`) are passed
in as explicit parameters (`now`, `rand`, `iso`, `t`).
-/

namespace MaterialTrace

/-- Material status enumeration, from the `Material` type:
`nao_conferido | conferido_correto | conferido_outro_setor`. -/
inductive MStatus where
  | nao_conferido
  | conferido_correto
  | conferido_outro_setor
deriving DecidableEq, Repr

/-- The `ultimaConferencia` record: `{data, setorEncontrado, salaEncontrada}`. -/
structure Conferencia where
  data : String
  setorEncontrado : String
  salaEncontrada : String
deriving DecidableEq, Repr

/-- The `Material` record from `types/material`. -/
structure Material where
  id : String
  nome : String
  bmp : String
  setor : String
  sala : String
  responsavel : String
  qrCode : String
  status : MStatus
  ultimaConferencia : Option Conferencia
  dataCadastro : String
deriving DecidableEq, Repr

/-- The `Setor` record: `{id, nome, salas}`. -/
structure Setor where
  id : String
  nome : String
  salas : List String
deriving DecidableEq, Repr

/-- The mutable part of the `MaterialsState` Zustand store. -/
structure MaterialsState where
  materials : List Material
  setores : List Setor
  loading : Bool
deriving DecidableEq, Repr

/-- First entry of `mockMaterials`. -/
def mockMaterial1 : Material :=
  { id := "1"
    nome := "Computador Desktop Dell"
    bmp := "BMP001"
    setor := "TI"
    sala := "Escritório TI"
    responsavel := "João Silva"
    qrCode := "QR_001_HASH_ABC123"
    status := .conferido_correto
    ultimaConferencia := some
      { data := "2024-01-15T10:30:00Z"
        setorEncontrado := "TI"
        salaEncontrada := "Escritório TI" }
    dataCadastro := "2024-01-01T08:00:00Z" }

/-- Second entry of `mockMaterials`. -/
def mockMaterial2 : Material :=
  { id := "2"
    nome := "Monitor LG 24\""
    bmp := "BMP002"
    setor := "Administração"
    sala := "Sala 101"
    responsavel := "Maria Santos"
    qrCode := "QR_002_HASH_DEF456"
    status := .conferido_outro_setor
    ultimaConferencia := some
      { data := "2024-01-15T11:15:00Z"
        setorEncontrado := "TI"
        salaEncontrada := "Sala Técnica" }
    dataCadastro := "2024-01-02T09:15:00Z" }

/-- Third entry of `mockMaterials`. -/
def mockMaterial3 : Material :=
  { id := "3"
    nome := "Impressora HP LaserJet"
    bmp := "BMP003"
    setor := "RH"
    sala := "Sala RH"
    responsavel := "Carlos Oliveira"
    qrCode := "QR_003_HASH_GHI789"
    status := .nao_conferido
    ultimaConferencia := none
    dataCadastro := "2024-01-03T14:20:00Z" }

/-- The `mockMaterials` array the store is initialised with. -/
def mockMaterials : List Material := [mockMaterial1, mockMaterial2, mockMaterial3]

/-- The `mockSetores` array. -/
def mockSetores : List Setor :=
  [ { id := "1", nome := "Administração", salas := ["Sala 101", "Sala 102", "Recepção"] }
  , { id := "2", nome := "Produção", salas := ["Linha 1", "Linha 2", "Estoque"] }
  , { id := "3", nome := "TI", salas := ["Sala Servidores", "Sala Técnica", "Escritório TI"] }
  , { id := "4", nome := "RH", salas := ["Sala RH", "Sala Reunião", "Arquivo"] } ]

/-- The initial store state: `materials: mockMaterials, setores: mockSetores, loading: false`. -/
def initialState : MaterialsState :=
  { materials := mockMaterials, setores := mockSetores, loading := false }

/-- The argument type of `addMaterial`: `Omit<Material, 'id' | 'qrCode' | 'dataCadastro'>`.
Note that this type still contains `status` and the optional `ultimaConferencia`. -/
structure MaterialInput where
  nome : String
  bmp : String
  setor : String
  sala : String
  responsavel : String
  status : MStatus
  ultimaConferencia : Option Conferencia
deriving DecidableEq, Repr

/-- The record built inside `addMaterial`: spreads `materialData`, then overrides
`id` (from `Date.now()`), `qrCode` (from `Date.now()` and `Math.random()`),
`status` (to `nao_conferido`) and `dataCadastro` (ISO timestamp).
`ultimaConferencia` is NOT overridden, so it is taken from the input. -/
def newMaterialOf (d : MaterialInput) (now : Nat) (rand : String) (iso : String) : Material :=
  { id := toString now
    nome := d.nome
    bmp := d.bmp
    setor := d.setor
    sala := d.sala
    responsavel := d.responsavel
    qrCode := "QR_" ++ toString now ++ "_HASH_" ++ rand
    status := .nao_conferido
    ultimaConferencia := d.ultimaConferencia
    dataCadastro := iso }

/-- `addMaterial`: appends the new material to `state.materials`. -/
def addMaterial (st : MaterialsState) (d : MaterialInput) (now : Nat) (rand iso : String) :
    MaterialsState :=
  { st with materials := st.materials ++ [newMaterialOf d now rand iso] }

/-- The argument type of `updateMaterial`: `Partial<Material>`. Every field may be
present or absent; a present `ultimaConferencia` may itself be `undefined`. -/
structure MaterialUpdates where
  id : Option String := none
  nome : Option String := none
  bmp : Option String := none
  setor : Option String := none
  sala : Option String := none
  responsavel : Option String := none
  qrCode : Option String := none
  status : Option MStatus := none
  ultimaConferencia : Option (Option Conferencia) := none
  dataCadastro : Option String := none
deriving DecidableEq, Repr

/-- The object spread `{ ...material, ...updates }`: every field present in
`updates` overwrites the corresponding field of `material`. -/
def applyUpdates (m : Material) (u : MaterialUpdates) : Material :=
  { id := u.id.getD m.id
    nome := u.nome.getD m.nome
    bmp := u.bmp.getD m.bmp
    setor := u.setor.getD m.setor
    sala := u.sala.getD m.sala
    responsavel := u.responsavel.getD m.responsavel
    qrCode := u.qrCode.getD m.qrCode
    status := u.status.getD m.status
    ultimaConferencia := u.ultimaConferencia.getD m.ultimaConferencia
    dataCadastro := u.dataCadastro.getD m.dataCadastro }

/-- `updateMaterial`: maps over `state.materials`, merging `updates` into the
material whose `id` matches. -/
def updateMaterial (st : MaterialsState) (id : String) (u : MaterialUpdates) : MaterialsState :=
  { st with materials := st.materials.map (fun m => if m.id == id then applyUpdates m u else m) }

/-- `deleteMaterial`: filters out the material whose `id` matches. -/
def deleteMaterial (st : MaterialsState) (id : String) : MaterialsState :=
  { st with materials := st.materials.filter (fun m => m.id != id) }

/-- The decision rule of `conferirMaterial`:
`isCorrectLocation = material.setor === setor && material.sala === sala`,
`status = isCorrectLocation ? 'conferido_correto' : 'conferido_outro_setor'`. -/
def decideStatus (material : Material) (setor sala : String) : MStatus :=
  if material.setor = setor ∧ material.sala = sala then .conferido_correto
  else .conferido_outro_setor

/-- The per-material update performed by `conferirMaterial` on a scanned
material: `{ ...m, status, ultimaConferencia: {data, setorEncontrado, salaEncontrada} }`. -/
def conferStamp (setor sala t : String) (stat : MStatus) (m : Material) : Material :=
  { m with status := stat
           ultimaConferencia := some { data := t, setorEncontrado := setor, salaEncontrada := sala } }

/-- The mapping function of `conferirMaterial`: update the materials whose
`qrCode` matches the scanned code, leave every other material unchanged. -/
def conferApply (qrCode setor sala t : String) (stat : MStatus) (m : Material) : Material :=
  if m.qrCode == qrCode then conferStamp setor sala t stat m else m

/-- `conferirMaterial(qrCode, setor, sala)`: looks up the first material whose
`qrCode` matches; if none is found the operation returns without effect;
otherwise it computes the status from the found material's expected location
and rewrites every matching material. `t` is `new Date().toISOString()`. -/
def conferirMaterial (st : MaterialsState) (qrCode setor sala t : String) : MaterialsState :=
  match st.materials.find? (fun m => m.qrCode == qrCode) with
  | none => st
  | some material =>
      { st with materials :=
          st.materials.map (conferApply qrCode setor sala t (decideStatus material setor sala)) }

/-- The form state of the Materiais page (`newMaterial` in the component):
only the five editable fields. -/
structure FormInput where
  nome : String
  bmp : String
  setor : String
  sala : String
  responsavel : String
deriving DecidableEq, Repr

/-- The creation payload `handleAddMaterial` passes to `addMaterial`:
`{ ...newMaterial, status: 'nao_conferido' }`, with no `ultimaConferencia`. -/
def formToInput (f : FormInput) : MaterialInput :=
  { nome := f.nome
    bmp := f.bmp
    setor := f.setor
    sala := f.sala
    responsavel := f.responsavel
    status := .nao_conferido
    ultimaConferencia := none }

/-- `handleAddMaterial` from the Materiais page: returns without calling
`addMaterial` when any of `nome`, `bmp`, `setor`, `sala` is falsy (empty). -/
def handleAddMaterial (st : MaterialsState) (f : FormInput) (now : Nat) (rand iso : String) :
    MaterialsState :=
  if f.nome = "" ∨ f.bmp = "" ∨ f.setor = "" ∨ f.sala = "" then st
  else addMaterial st (formToInput f) now rand iso

/-- One registry operation, for reasoning about reachable states. -/
inductive Op where
  | add (d : MaterialInput) (now : Nat) (rand iso : String)
  | update (id : String) (u : MaterialUpdates)
  | del (id : String)
  | confer (code setor sala t : String)
deriving DecidableEq, Repr

/-- Apply one operation to the store. -/
def applyOp (st : MaterialsState) : Op → MaterialsState
  | .add d now rand iso => addMaterial st d now rand iso
  | .update id u => updateMaterial st id u
  | .del id => deleteMaterial st id
  | .confer code setor sala t => conferirMaterial st code setor sala t

/-- Run a sequence of operations from a state. -/
def run (st : MaterialsState) (ops : List Op) : MaterialsState := ops.foldl applyOp st

/-- The uniqueness invariant of the spec: no two materials share an
`assetTag` (`bmp`) and no two share a `qrCode`. -/
def uniqueBmpQr (st : MaterialsState) : Prop :=
  st.materials.Pairwise (fun a b => a.bmp ≠ b.bmp ∧ a.qrCode ≠ b.qrCode)

/-- The derivability invariant of the spec: a material with no
`ultimaConferencia` has status `nao_conferido`. -/
def derivInvariant (st : MaterialsState) : Prop :=
  ∀ m ∈ st.materials, m.ultimaConferencia = none → m.status = .nao_conferido

instance (st : MaterialsState) : Decidable (uniqueBmpQr st) := by
  unfold uniqueBmpQr
  infer_instance

instance (st : MaterialsState) : Decidable (derivInvariant st) := by
  unfold derivInvariant
  infer_instance

/-- An operation is update-safe when, if it is an update, its field set
contains neither `status` nor `ultimaConferencia`. -/
def updateSafe : Op → Bool
  | .update _ u => u.status.isNone && u.ultimaConferencia.isNone
  | _ => true

/-- A scan update never changes a material's `qrCode`. -/
lemma conferApply_qrCode (code S R t : String) (stat : MStatus) (m : Material) :
    (conferApply code S R t stat m).qrCode = m.qrCode := by
  unfold conferApply conferStamp; split <;> rfl

/-- A scan update never changes a material's `setor`. -/
lemma conferApply_setor (code S R t : String) (stat : MStatus) (m : Material) :
    (conferApply code S R t stat m).setor = m.setor := by
  unfold conferApply conferStamp; split <;> rfl

/-- A scan update never changes a material's `sala`. -/
lemma conferApply_sala (code S R t : String) (stat : MStatus) (m : Material) :
    (conferApply code S R t stat m).sala = m.sala := by
  unfold conferApply conferStamp; split <;> rfl

/-- A scan update never changes a material's `bmp`. -/
lemma conferApply_bmp (code S R t : String) (stat : MStatus) (m : Material) :
    (conferApply code S R t stat m).bmp = m.bmp := by
  unfold conferApply conferStamp; split <;> rfl

/-- Equation for `conferirMaterial` when the lookup fails. -/
lemma conferirMaterial_eq_none (st : MaterialsState) (code S R t : String)
    (hf : st.materials.find? (fun m => m.qrCode == code) = none) :
    conferirMaterial st code S R t = st := by
  unfold conferirMaterial
  rw [hf]

/-- Equation for `conferirMaterial` when the lookup finds `M`. -/
lemma conferirMaterial_eq_some (st : MaterialsState) (code S R t : String) (M : Material)
    (hf : st.materials.find? (fun m => m.qrCode == code) = some M) :
    conferirMaterial st code S R t
      = { st with materials :=
            st.materials.map (conferApply code S R t (decideStatus M S R)) } := by
  unfold conferirMaterial
  rw [hf]

/-- Two successive scan updates with the same code and location collapse to
the second one (last write wins on `status` and `ultimaConferencia`). -/
lemma conferApply_conferApply (code S R t1 t2 : String) (s1 s2 : MStatus) (m : Material) :
    conferApply code S R t2 s2 (conferApply code S R t1 s1 m)
      = conferApply code S R t2 s2 m := by
  by_cases hq : m.qrCode == code
  · have h1 : conferApply code S R t1 s1 m = conferStamp S R t1 s1 m := by
      unfold conferApply
      rw [if_pos hq]
    have hq2 : ((conferStamp S R t1 s1 m).qrCode == code) = true := hq
    have h3 : conferApply code S R t2 s2 (conferStamp S R t1 s1 m)
        = conferStamp S R t2 s2 (conferStamp S R t1 s1 m) := by
      unfold conferApply
      rw [if_pos hq2]
    have h2 : conferApply code S R t2 s2 m = conferStamp S R t2 s2 m := by
      unfold conferApply
      rw [if_pos hq]
    rw [h1, h3, h2]
    rfl
  · have h1 : conferApply code S R t1 s1 m = m := by
      unfold conferApply
      rw [if_neg hq]
    rw [h1]

/-- Pointwise relation between a list and its image under a map. -/
lemma forall₂_map_self {α : Type} (f : α → α) (R : α → α → Prop) (l : List α)
    (h : ∀ a ∈ l, R a (f a)) : List.Forall₂ R l (l.map f) := by
  induction l with
  | nil => exact List.Forall₂.nil
  | cons x xs ih =>
      exact List.Forall₂.cons (h x (List.mem_cons_self x xs))
        (ih (fun a ha => h a (List.mem_cons_of_mem x ha)))

/-- C2: a scan whose code matches no material's `qrCode` leaves the whole
store state unchanged (a silent no-op). -/
theorem conferirMaterial_not_found_noop (st : MaterialsState) (code S R t : String)
    (h : ∀ m ∈ st.materials, m.qrCode ≠ code) :
    conferirMaterial st code S R t = st := by
  have hn : st.materials.find? (fun m => m.qrCode == code) = none :=
    List.find?_eq_none.2 (fun m hm => by simpa using h m hm)
  unfold conferirMaterial
  rw [hn]

/-- Witness for C2: scanning the unknown code `QR_UNKNOWN` on the initial
mock store changes nothing. -/
theorem conferirMaterial_not_found_noop_witness :
    conferirMaterial initialState "QR_UNKNOWN" "TI" "Sala 101" "2024-02-02T00:00:00Z"
      = initialState :=
  conferirMaterial_not_found_noop initialState "QR_UNKNOWN" "TI" "Sala 101"
    "2024-02-02T00:00:00Z" (by decide)

/-- A creation input that carries an `ultimaConferencia` record, legal for the
`Omit<Material, 'id' | 'qrCode' | 'dataCadastro'>` parameter type of `addMaterial`. -/
def inputWithConferencia : MaterialInput :=
  { nome := "Cadeira Gamer"
    bmp := "BMP777"
    setor := "RH"
    sala := "Arquivo"
    responsavel := "Ana Lima"
    status := .conferido_correto
    ultimaConferencia := some
      { data := "2024-03-01T09:00:00Z", setorEncontrado := "RH", salaEncontrada := "Arquivo" } }

/-- Counterexample to C7: `addMaterial` only overrides `id`, `qrCode`, `status`
and `dataCadastro` in the spread, so an `ultimaConferencia` present in the
creation input survives into the created record, which therefore does NOT
"have no lastConference". -/
theorem addMaterial_keeps_input_conferencia_cex :
    (addMaterial initialState inputWithConferencia 99 "ZZZZZZ" "2024-03-01T12:00:00Z").materials
      = initialState.materials
          ++ [newMaterialOf inputWithConferencia 99 "ZZZZZZ" "2024-03-01T12:00:00Z"]
    ∧ (newMaterialOf inputWithConferencia 99 "ZZZZZZ" "2024-03-01T12:00:00Z").ultimaConferencia
        ≠ none :=
  ⟨rfl, by decide⟩

/-- C7 (amended): `addMaterial` appends exactly one record, touches nothing
else; the created record has status `nao_conferido`, its `ultimaConferencia`
is copied from the creation input (absent whenever the input omits one), and
`id`, `qrCode`, `dataCadastro` come from the system environment, not the input. -/
theorem addMaterial_spec_amended (st : MaterialsState) (d : MaterialInput) (now : Nat)
    (rand iso : String) :
    (addMaterial st d now rand iso).materials = st.materials ++ [newMaterialOf d now rand iso]
    ∧ (addMaterial st d now rand iso).setores = st.setores
    ∧ (addMaterial st d now rand iso).loading = st.loading
    ∧ (newMaterialOf d now rand iso).status = MStatus.nao_conferido
    ∧ (newMaterialOf d now rand iso).ultimaConferencia = d.ultimaConferencia
    ∧ (newMaterialOf d now rand iso).id = toString now
    ∧ (newMaterialOf d now rand iso).qrCode = "QR_" ++ toString now ++ "_HASH_" ++ rand
    ∧ (newMaterialOf d now rand iso).dataCadastro = iso :=
  ⟨rfl, rfl, rfl, rfl, rfl, rfl, rfl, rfl⟩

/-- C8: the page handler guarding `addMaterial` refuses to create a record
when any of the required fields `nome`, `bmp`, `setor`, `sala` is empty — the
store is returned unchanged — and otherwise delegates to `addMaterial` with a
payload that carries no `ultimaConferencia`. -/
theorem handleAddMaterial_validates (st : MaterialsState) (f : FormInput) (now : Nat)
    (rand iso : String) :
    ((f.nome = "" ∨ f.bmp = "" ∨ f.setor = "" ∨ f.sala = "") →
        handleAddMaterial st f now rand iso = st)
    ∧ (¬(f.nome = "" ∨ f.bmp = "" ∨ f.setor = "" ∨ f.sala = "") →
        handleAddMaterial st f now rand iso = addMaterial st (formToInput f) now rand iso
        ∧ (formToInput f).ultimaConferencia = none) := by
  constructor
  · intro h
    unfold handleAddMaterial
    rw [if_pos h]
  · intro h
    unfold handleAddMaterial
    rw [if_neg h]
    exact ⟨rfl, rfl⟩

/-- A form submission with an empty required `nome` field. -/
def emptyNomeForm : FormInput :=
  { nome := "", bmp := "BMP010", setor := "TI", sala := "Sala 101", responsavel := "Beatriz" }

/-- Witness for C8: submitting a form with empty `nome` leaves the initial
store unchanged. -/
theorem handleAddMaterial_validates_witness :
    handleAddMaterial initialState emptyNomeForm 50 "ABCDEF" "2024-04-01T00:00:00Z"
      = initialState :=
  (handleAddMaterial_validates initialState emptyNomeForm 50 "ABCDEF"
    "2024-04-01T00:00:00Z").1 (by decide)

/-- C1: scanning the `qrCode` of a material `M` that shares its code with no
other material rewrites the registry by updating exactly the entries carrying
that code; the updated record gets status `conferido_correto` exactly when the
observed sector and room equal `M`'s expected ones, `conferido_outro_setor`
otherwise, and its `ultimaConferencia` becomes `{t, S, R}`. -/
theorem conferirMaterial_unique_qr_spec (st : MaterialsState) (M : Material) (S R t : String)
    (hM : M ∈ st.materials)
    (huniq : ∀ m ∈ st.materials, m.qrCode = M.qrCode → m = M) :
    (conferirMaterial st M.qrCode S R t).materials
      = st.materials.map (conferApply M.qrCode S R t (decideStatus M S R))
    ∧ conferStamp S R t (decideStatus M S R) M ∈ (conferirMaterial st M.qrCode S R t).materials
    ∧ ((conferStamp S R t (decideStatus M S R) M).status = MStatus.conferido_correto
        ↔ (S = M.setor ∧ R = M.sala))
    ∧ ((conferStamp S R t (decideStatus M S R) M).status = MStatus.conferido_outro_setor
        ↔ ¬(S = M.setor ∧ R = M.sala))
    ∧ (conferStamp S R t (decideStatus M S R) M).ultimaConferencia
        = some { data := t, setorEncontrado := S, salaEncontrada := R } := by
  have hsome : st.materials.find? (fun m => m.qrCode == M.qrCode) = some M := by
    cases hf : st.materials.find? (fun m => m.qrCode == M.qrCode) with
    | none =>
        exfalso
        have hnone := List.find?_eq_none.1 hf M hM
        simp at hnone
    | some m0 =>
        have hp := List.find?_some hf
        have hmem := List.mem_of_find?_eq_some hf
        rw [huniq m0 hmem (by simpa using hp)]
  have hmats : (conferirMaterial st M.qrCode S R t).materials
      = st.materials.map (conferApply M.qrCode S R t (decideStatus M S R)) := by
    rw [conferirMaterial_eq_some st M.qrCode S R t M hsome]
  refine ⟨hmats, ?_, ?_, ?_, rfl⟩
  · rw [hmats]
    have happ : conferApply M.qrCode S R t (decideStatus M S R) M
        = conferStamp S R t (decideStatus M S R) M := by
      unfold conferApply
      rw [if_pos (by simp)]
    rw [← happ]
    exact List.mem_map_of_mem _ hM
  · show decideStatus M S R = MStatus.conferido_correto ↔ (S = M.setor ∧ R = M.sala)
    unfold decideStatus
    by_cases hc : M.setor = S ∧ M.sala = R
    · rw [if_pos hc]
      exact iff_of_true rfl ⟨hc.1.symm, hc.2.symm⟩
    · rw [if_neg hc]
      exact iff_of_false (by decide) (fun h => hc ⟨h.1.symm, h.2.symm⟩)
  · show decideStatus M S R = MStatus.conferido_outro_setor ↔ ¬(S = M.setor ∧ R = M.sala)
    unfold decideStatus
    by_cases hc : M.setor = S ∧ M.sala = R
    · rw [if_pos hc]
      exact iff_of_false (by decide) (not_not_intro ⟨hc.1.symm, hc.2.symm⟩)
    · rw [if_neg hc]
      exact iff_of_true rfl (fun h => hc ⟨h.1.symm, h.2.symm⟩)

/-- Witness for C1: scanning the third mock material at its expected location
records the conference `{t, RH, Sala RH}` on it. -/
theorem conferirMaterial_unique_qr_spec_witness :
    (conferStamp "RH" "Sala RH" "2024-05-01T10:00:00Z"
        (decideStatus mockMaterial3 "RH" "Sala RH") mockMaterial3).ultimaConferencia
      = some { data := "2024-05-01T10:00:00Z", setorEncontrado := "RH",
               salaEncontrada := "Sala RH" } :=
  (conferirMaterial_unique_qr_spec initialState mockMaterial3 "RH" "Sala RH"
    "2024-05-01T10:00:00Z" (by decide) (by decide)).2.2.2.2

/-- C5: a scan only rewrites `status` and `ultimaConferencia` of the materials
carrying the scanned code: every material whose `qrCode` differs from the code
is untouched, and even on the scanned materials `setor`, `sala` and every
other field except `status`/`ultimaConferencia` keep their values; `setores`
and `loading` are untouched as well. -/
theorem conferirMaterial_frame (st : MaterialsState) (code S R t : String) :
    (conferirMaterial st code S R t).setores = st.setores
    ∧ (conferirMaterial st code S R t).loading = st.loading
    ∧ List.Forall₂ (fun m mres =>
        (m.qrCode ≠ code → mres = m)
        ∧ mres.id = m.id ∧ mres.nome = m.nome ∧ mres.bmp = m.bmp
        ∧ mres.setor = m.setor ∧ mres.sala = m.sala
        ∧ mres.responsavel = m.responsavel ∧ mres.qrCode = m.qrCode
        ∧ mres.dataCadastro = m.dataCadastro)
      st.materials (conferirMaterial st code S R t).materials := by
  cases hf : st.materials.find? (fun m => m.qrCode == code) with
  | none =>
      rw [conferirMaterial_eq_none st code S R t hf]
      exact ⟨rfl, rfl, List.forall₂_same.2
        (fun m _ => ⟨fun _ => rfl, rfl, rfl, rfl, rfl, rfl, rfl, rfl, rfl⟩)⟩
  | some M =>
      rw [conferirMaterial_eq_some st code S R t M hf]
      refine ⟨rfl, rfl, forall₂_map_self _ _ _ ?_⟩
      intro m _
      by_cases hq : m.qrCode = code
      · have happ : conferApply code S R t (decideStatus M S R) m
            = conferStamp S R t (decideStatus M S R) m := by
          unfold conferApply
          rw [if_pos (by simpa using hq)]
        rw [happ]
        exact ⟨fun hne => absurd hq hne, rfl, rfl, rfl, rfl, rfl, rfl, rfl, rfl⟩
      · have happ : conferApply code S R t (decideStatus M S R) m = m := by
          unfold conferApply
          rw [if_neg (by simpa using hq)]
        rw [happ]
        exact ⟨fun _ => rfl, rfl, rfl, rfl, rfl, rfl, rfl, rfl, rfl⟩

/-- C6: repeating a scan with identical arguments produces the same store
state as performing it once — here in the strong, timestamp-aware form: the
second scan completely overwrites the first, so scanning twice (at times `t1`
then `t2`) equals scanning once at `t2`. -/
theorem conferirMaterial_idempotent (st : MaterialsState) (code S R t1 t2 : String) :
    conferirMaterial (conferirMaterial st code S R t1) code S R t2
      = conferirMaterial st code S R t2 := by
  cases hf : st.materials.find? (fun m => m.qrCode == code) with
  | none =>
      rw [conferirMaterial_eq_none st code S R t1 hf]
  | some M =>
      rw [conferirMaterial_eq_some st code S R t1 M hf]
      have hfind2 : ((st.materials.map
            (conferApply code S R t1 (decideStatus M S R))).find?
            (fun m => m.qrCode == code))
          = some (conferApply code S R t1 (decideStatus M S R) M) := by
        rw [List.find?_map]
        have hcomp : ((fun m => m.qrCode == code)
              ∘ conferApply code S R t1 (decideStatus M S R))
            = (fun m => m.qrCode == code) := by
          funext m
          simp [Function.comp, conferApply_qrCode]
        rw [hcomp, hf]
        rfl
      rw [conferirMaterial_eq_some _ code S R t2 _ hfind2,
        conferirMaterial_eq_some st code S R t2 M hf]
      have hds : decideStatus (conferApply code S R t1 (decideStatus M S R) M) S R
          = decideStatus M S R := by
        unfold decideStatus
        rw [conferApply_setor, conferApply_sala]
      rw [hds]
      have hmats : (st.materials.map (conferApply code S R t1 (decideStatus M S R))).map
            (conferApply code S R t2 (decideStatus M S R))
          = st.materials.map (conferApply code S R t2 (decideStatus M S R)) := by
        rw [List.map_map]
        exact List.map_congr_left
          (fun m _ => conferApply_conferApply code S R t1 t2 _ _ m)
      simp only [hmats]

/-- An update payload that (legally for `Partial<Material>`) rewrites the
protected `status` field. -/
def uStatusC4 : MaterialUpdates := { status := some .conferido_correto }

/-- Counterexample to C4: `updateMaterial` merges `{ ...material, ...updates }`
with no guard, so an update payload containing `status` does change the
material's status — here material `"3"` moves from `nao_conferido` to
`conferido_correto`. -/
theorem updateMaterial_changes_status_cex :
    (updateMaterial initialState "3" uStatusC4).materials.map Material.status
      ≠ initialState.materials.map Material.status := by decide

/-- Any per-material field that the update payload leaves absent is preserved
across `updateMaterial`, registry-wide. -/
lemma updateMaterial_map_field {β : Type} (st : MaterialsState) (id : String)
    (u : MaterialUpdates) (g : Material → β)
    (hg : ∀ m, g (applyUpdates m u) = g m) :
    (updateMaterial st id u).materials.map g = st.materials.map g := by
  show (st.materials.map (fun m => if m.id == id then applyUpdates m u else m)).map g
      = st.materials.map g
  rw [List.map_map]
  refine List.map_congr_left (fun m _ => ?_)
  show g (if m.id == id then applyUpdates m u else m) = g m
  by_cases hm : m.id == id
  · rw [if_pos hm]
    exact hg m
  · rw [if_neg hm]

/-- C4 (amended): `updateMaterial` overwrites exactly the fields present in
the partial payload — including `id`, `qrCode`, `status`, `ultimaConferencia`
and `dataCadastro` when they are present — so those five fields are unchanged
precisely when the payload omits them; and when no material carries the given
`id` the store is unchanged. -/
theorem updateMaterial_frame_amended (st : MaterialsState) (id : String)
    (u : MaterialUpdates) :
    ((∀ m ∈ st.materials, m.id ≠ id) → updateMaterial st id u = st)
    ∧ (u.id = none →
        (updateMaterial st id u).materials.map Material.id = st.materials.map Material.id)
    ∧ (u.qrCode = none →
        (updateMaterial st id u).materials.map Material.qrCode
          = st.materials.map Material.qrCode)
    ∧ (u.status = none →
        (updateMaterial st id u).materials.map Material.status
          = st.materials.map Material.status)
    ∧ (u.ultimaConferencia = none →
        (updateMaterial st id u).materials.map Material.ultimaConferencia
          = st.materials.map Material.ultimaConferencia)
    ∧ (u.dataCadastro = none →
        (updateMaterial st id u).materials.map Material.dataCadastro
          = st.materials.map Material.dataCadastro)
    ∧ (updateMaterial st id u).setores = st.setores
    ∧ (updateMaterial st id u).loading = st.loading := by
  refine ⟨?_, ?_, ?_, ?_, ?_, ?_, rfl, rfl⟩
  · intro h
    unfold updateMaterial
    have hmap : st.materials.map (fun m => if m.id == id then applyUpdates m u else m)
        = st.materials.map (fun m => m) :=
      List.map_congr_left (fun m hm => by rw [if_neg (by simpa using h m hm)])
    rw [hmap, List.map_id']
  · intro hu
    exact updateMaterial_map_field st id u Material.id
      (fun m => by unfold applyUpdates; rw [hu]; rfl)
  · intro hu
    exact updateMaterial_map_field st id u Material.qrCode
      (fun m => by unfold applyUpdates; rw [hu]; rfl)
  · intro hu
    exact updateMaterial_map_field st id u Material.status
      (fun m => by unfold applyUpdates; rw [hu]; rfl)
  · intro hu
    exact updateMaterial_map_field st id u Material.ultimaConferencia
      (fun m => by unfold applyUpdates; rw [hu]; rfl)
  · intro hu
    exact updateMaterial_map_field st id u Material.dataCadastro
      (fun m => by unfold applyUpdates; rw [hu]; rfl)

/-- An update payload touching only the editable `nome` field. -/
def uNomeOnly : MaterialUpdates := { nome := some "Notebook Dell" }

/-- Witness for the amended C4: updating a non-existent id `"999"` on the
initial store is a no-op. -/
theorem updateMaterial_frame_amended_witness :
    updateMaterial initialState "999" uNomeOnly = initialState :=
  (updateMaterial_frame_amended initialState "999" uNomeOnly).1 (by decide)

/-- A creation input that duplicates the `bmp` asset tag `"BMP001"` already
carried by the first mock material. -/
def dupBmpInput : MaterialInput :=
  { nome := "Mesa de Reunião"
    bmp := "BMP001"
    setor := "TI"
    sala := "Sala Técnica"
    responsavel := "Paulo Souza"
    status := .nao_conferido
    ultimaConferencia := none }

/-- Counterexample to C3: `addMaterial` performs no uniqueness check on the
caller-supplied `bmp`, so a single create reaches a registry in which two
materials share the asset tag `"BMP001"`. -/
theorem uniqueBmpQr_not_invariant_cex :
    ¬ uniqueBmpQr (run initialState
      [Op.add dupBmpInput 10 "AAAAAA" "2024-07-01T00:00:00Z"]) := by decide

/-- C3 (amended): the uniqueness of `bmp` and `qrCode` is preserved by
`deleteMaterial` and by `conferirMaterial`, but it is not enforced by
`addMaterial` (the asset tag comes from the input unchecked and the generated
`qrCode` is never compared with the store) nor by `updateMaterial` (which may
overwrite both), so it is not an invariant of all reachable states. -/
theorem uniqueBmpQr_preserved_del_confer (st : MaterialsState) (id code S R t : String)
    (h : uniqueBmpQr st) :
    uniqueBmpQr (deleteMaterial st id) ∧ uniqueBmpQr (conferirMaterial st code S R t) := by
  constructor
  · exact h.sublist (List.filter_sublist st.materials)
  · cases hf : st.materials.find? (fun m => m.qrCode == code) with
    | none =>
        rw [conferirMaterial_eq_none st code S R t hf]
        exact h
    | some M =>
        rw [conferirMaterial_eq_some st code S R t M hf]
        show (st.materials.map (conferApply code S R t (decideStatus M S R))).Pairwise _
        rw [List.pairwise_map]
        refine h.imp (fun hab => ?_)
        constructor
        · rw [conferApply_bmp, conferApply_bmp]
          exact hab.1
        · rw [conferApply_qrCode, conferApply_qrCode]
          exact hab.2

/-- Witness for the amended C3: deleting material `"2"` and rescanning
material 1 both keep the mock registry duplicate-free. -/
theorem uniqueBmpQr_preserved_del_confer_witness :
    uniqueBmpQr (deleteMaterial initialState "2")
    ∧ uniqueBmpQr (conferirMaterial initialState "QR_001_HASH_ABC123" "TI"
        "Escritório TI" "2024-08-01T00:00:00Z") :=
  uniqueBmpQr_preserved_del_confer initialState "2" "QR_001_HASH_ABC123" "TI"
    "Escritório TI" "2024-08-01T00:00:00Z" (by decide)

/-- An update payload that (legally for `Partial<Material>`) rewrites `status`
without touching `ultimaConferencia`. -/
def uStatusC9 : MaterialUpdates := { status := some .conferido_outro_setor }

/-- Counterexample to C9: a single `updateMaterial` carrying a `status` field
moves material `"3"` to `conferido_outro_setor` while its `ultimaConferencia`
stays absent, so the reachable-state invariant "no `lastConference` implies
`nao_conferido`" fails. -/
theorem derivInvariant_not_invariant_cex :
    ¬ derivInvariant (run initialState [Op.update "3" uStatusC9]) := by decide

/-- One operation preserves the derivability invariant provided that, if it is
an update, its payload contains neither `status` nor `ultimaConferencia`. -/
lemma applyOp_preserves_derivInvariant (st : MaterialsState) (op : Op)
    (h : derivInvariant st) (hsafe : updateSafe op = true) :
    derivInvariant (applyOp st op) := by
  cases op with
  | add d now rand iso =>
      intro m hm hconf
      rcases List.mem_append.1 hm with hm0 | hm1
      · exact h m hm0 hconf
      · rw [List.mem_singleton.1 hm1]
        rfl
  | update id u =>
      have hb : (u.status.isNone && u.ultimaConferencia.isNone) = true := hsafe
      rw [Bool.and_eq_true] at hb
      have hs : u.status = none := Option.isNone_iff_eq_none.1 hb.1
      have hc : u.ultimaConferencia = none := Option.isNone_iff_eq_none.1 hb.2
      intro m hm hconf
      simp only [applyOp, updateMaterial] at hm
      rcases List.mem_map.1 hm with ⟨m0, hm0, heq⟩
      rw [← heq] at hconf ⊢
      by_cases hid : m0.id == id
      · rw [if_pos hid] at hconf ⊢
        have hstat : (applyUpdates m0 u).status = m0.status := by
          unfold applyUpdates
          rw [hs]
          rfl
        have hcon : (applyUpdates m0 u).ultimaConferencia = m0.ultimaConferencia := by
          unfold applyUpdates
          rw [hc]
          rfl
        rw [hstat]
        rw [hcon] at hconf
        exact h m0 hm0 hconf
      · rw [if_neg hid] at hconf ⊢
        exact h m0 hm0 hconf
  | del id =>
      intro m hm hconf
      simp only [applyOp, deleteMaterial] at hm
      exact h m (List.mem_of_mem_filter hm) hconf
  | confer code setor sala t =>
      intro m hm hconf
      simp only [applyOp] at hm
      cases hf : st.materials.find? (fun x => x.qrCode == code) with
      | none =>
          rw [conferirMaterial_eq_none st code setor sala t hf] at hm
          exact h m hm hconf
      | some M =>
          rw [conferirMaterial_eq_some st code setor sala t M hf] at hm
          rcases List.mem_map.1 hm with ⟨m0, hm0, heq⟩
          rw [← heq] at hconf ⊢
          by_cases hq : m0.qrCode == code
          · exfalso
            unfold conferApply at hconf
            rw [if_pos hq] at hconf
            simp [conferStamp] at hconf
          · unfold conferApply at hconf ⊢
            rw [if_neg hq] at hconf ⊢
            exact h m0 hm0 hconf

/-- C9 (amended): the invariant "a material with no `ultimaConferencia` has
status `nao_conferido`" holds in every state reached from a state satisfying
it by creates, deletes, scans, and updates whose payload includes neither
`status` nor `ultimaConferencia` (as the UI edit form guarantees); raw
updates carrying a `status` field can break it. -/
theorem derivInvariant_preserved (st : MaterialsState) (ops : List Op)
    (hst : derivInvariant st) (hops : ∀ op ∈ ops, updateSafe op = true) :
    derivInvariant (run st ops) := by
  induction ops generalizing st with
  | nil => exact hst
  | cons op ops ih =>
      exact ih (applyOp st op)
        (applyOp_preserves_derivInvariant st op hst (hops op (List.mem_cons_self op ops)))
        (fun o ho => hops o (List.mem_cons_of_mem op ho))

/-- An update payload touching only the editable `sala` field. -/
def uSalaOnly : MaterialUpdates := { sala := some "Sala Reunião" }

/-- Witness for the amended C9: a scan, a safe edit and a delete keep the
derivability invariant on the mock store. -/
theorem derivInvariant_preserved_witness :
    derivInvariant (run initialState
      [Op.confer "QR_003_HASH_GHI789" "TI" "Sala 101" "2024-06-01T00:00:00Z",
       Op.update "3" uSalaOnly,
       Op.del "1"]) :=
  derivInvariant_preserved initialState
    [Op.confer "QR_003_HASH_GHI789" "TI" "Sala 101" "2024-06-01T00:00:00Z",
     Op.update "3" uSalaOnly,
     Op.del "1"] (by decide) (by decide)

/-- The user kind: `'admin' | 'operador'`. -/
inductive UserTipo where
  | admin
  | operador
deriving DecidableEq, Repr

/-- The `User` record from `types/material`. -/
structure User where
  id : String
  login : String
  nome : String
  tipo : UserTipo
deriving DecidableEq, Repr

/-- The hard-coded user built by the mock `login`. -/
def adminUser : User :=
  { id := "1", login := "admin", nome := "Administrador", tipo := .admin }

/-- The credentials argument of `login`. -/
structure Credentials where
  login : String
  senha : String
deriving DecidableEq, Repr

/-- The mutable part of the `AuthState` Zustand store. -/
structure AuthState where
  user : Option User
  isAuthenticated : Bool
deriving DecidableEq, Repr

/-- The initial auth store: `user: null, isAuthenticated: false`. -/
def initialAuthState : AuthState := { user := none, isAuthenticated := false }

/-- `login` from `useAuth.ts`: on the hard-coded credentials it stores the
admin user, flips `isAuthenticated`, and returns `true`; on anything else it
returns `false` and leaves the store as it was. -/
def login (st : AuthState) (c : Credentials) : Bool × AuthState :=
  if c.login = "admin" ∧ c.senha = "123456" then
    (true, { user := some adminUser, isAuthenticated := true })
  else (false, st)

/-- `logout` from `useAuth.ts`. -/
def logout (_ : AuthState) : AuthState := { user := none, isAuthenticated := false }

/-- An event against the auth store. -/
inductive AuthEvent where
  | loginEv (c : Credentials)
  | logoutEv
deriving DecidableEq, Repr

/-- Apply one auth event. -/
def authStep (st : AuthState) : AuthEvent → AuthState
  | .loginEv c => (login st c).2
  | .logoutEv => logout st

/-- Run a sequence of auth events from the initial store. -/
def authRun (evs : List AuthEvent) : AuthState := evs.foldl authStep initialAuthState

/-- C10: `login` succeeds (returns `true`, stores the admin user, sets
`isAuthenticated`) exactly on the credentials `admin`/`123456`; on any other
credentials it returns `false` and leaves the store untouched; and along any
sequence of login/logout events from the initial store, a stored user is
always the admin user, so no run ever authenticates an `operador`. -/
theorem login_spec :
    (∀ (st : AuthState) (c : Credentials),
        (c.login = "admin" ∧ c.senha = "123456") →
        login st c = (true, { user := some adminUser, isAuthenticated := true }))
    ∧ (∀ (st : AuthState) (c : Credentials),
        ¬(c.login = "admin" ∧ c.senha = "123456") → login st c = (false, st))
    ∧ (∀ (st : AuthState) (c : Credentials),
        (login st c).1 = true ↔ (c.login = "admin" ∧ c.senha = "123456"))
    ∧ adminUser.tipo = UserTipo.admin
    ∧ (∀ (evs : List AuthEvent) (u : User),
        (authRun evs).user = some u → u.tipo = UserTipo.admin) := by
  have hinv : ∀ (evs : List AuthEvent) (st : AuthState),
      (st.user = none ∨ st.user = some adminUser) →
      ((evs.foldl authStep st).user = none
        ∨ (evs.foldl authStep st).user = some adminUser) := by
    intro evs
    induction evs with
    | nil => intro st hst; exact hst
    | cons e evs ih =>
        intro st hst
        refine ih (authStep st e) ?_
        cases e with
        | loginEv c =>
            show ((login st c).2.user = none ∨ (login st c).2.user = some adminUser)
            unfold login
            by_cases hc : c.login = "admin" ∧ c.senha = "123456"
            · rw [if_pos hc]
              exact Or.inr rfl
            · rw [if_neg hc]
              exact hst
        | logoutEv => exact Or.inl rfl
  refine ⟨?_, ?_, ?_, rfl, ?_⟩
  · intro st c hc
    unfold login
    rw [if_pos hc]
  · intro st c hc
    unfold login
    rw [if_neg hc]
  · intro st c
    unfold login
    by_cases hc : c.login = "admin" ∧ c.senha = "123456"
    · rw [if_pos hc]
      exact iff_of_true rfl hc
    · rw [if_neg hc]
      exact iff_of_false (fun hfalse => Bool.false_ne_true hfalse) hc
  · intro evs u hu
    have hfold : (evs.foldl authStep initialAuthState).user = some u := hu
    rcases hinv evs initialAuthState (Or.inl rfl) with h0 | h0
    · rw [h0] at hfold
      exact Option.noConfusion hfold
    · rw [h0] at hfold
      rw [← Option.some.inj hfold]
      rfl

/-- Witness for C10: logging in with `admin`/`123456` from the initial store
succeeds and stores the admin user. -/
theorem login_spec_witness :
    login initialAuthState { login := "admin", senha := "123456" }
      = (true, { user := some adminUser, isAuthenticated := true }) :=
  login_spec.1 initialAuthState { login := "admin", senha := "123456" } (by decide)

end MaterialTrace
